import Mathlib

/-!
Verification of the ProfileApp core: the Event and UserProfile data model,
the update-by-id replacement applied by the profile screen and by the
process-wide navigation observer, the detail-view rating flow, and the
edit-view save and add-interest operations.

Each definition is a shallow embedding of a function of the repository; the
source file and lines are named in its doc comment. JavaScript numbers that
the core only stores and compares are modelled as Int (integer identifiers,
star ratings) and Rat (map coordinates); JavaScript strings as String, with
the trim operation re-modelled structurally over the character list so that
it evaluates inside the kernel.
-/

/-- Coordinate pair of an Event (src/unnamed/part_000, interface Event).
The app only stores and forwards these numbers, so they are modelled as
rationals. -/
structure Coordinates where
  latitude : Rat
  longitude : Rat
deriving DecidableEq, Repr

/-- The Event record shape (src/unnamed/part_000, interface Event). -/
structure Event where
  id : Int
  title : String
  description : String
  location : String
  date : String
  rated : Bool
  rating : Option Int
  coordinates : Option Coordinates
deriving DecidableEq, Repr

/-- The UserProfile record shape (src/unnamed/part_000, interface
UserProfile). Optional fields are Option; interests and attendedEvents are
ordered lists. -/
structure UserProfile where
  name : String
  bio : String
  profileImageUrl : String
  birthdate : Option String
  email : Option String
  phone : Option String
  interests : List String
  location : Option String
  occupation : Option String
  attendedEvents : List Event
deriving DecidableEq, Repr

/-- JavaScript trim as called by the edit view (newInterest.trim and the
save validation): strip leading and trailing whitespace characters. Modelled
structurally over the character list, using the whitespace set of
Char.isWhitespace, which covers the ASCII whitespace the app encounters. -/
def jsTrim (s : String) : String :=
  String.mk (((s.data.dropWhile Char.isWhitespace).reverse.dropWhile
    Char.isWhitespace).reverse)

/-- handleUpdateEvent of ProfileScreen (src/unnamed/part_004, lines 49 to 56
and the second variant at lines 391 to 398): the setProfile updater maps
over attendedEvents and replaces every entry whose id equals the id of the
updated event by the updated event, leaving the other entries as they are.
The same map is the body of the UPDATE_EVENT branch of the App.tsx screen
listener. -/
def handleUpdateEvent (updatedEvent : Event) (p : UserProfile) : UserProfile :=
  { p with
    attendedEvents :=
      p.attendedEvents.map fun event =>
        if event.id = updatedEvent.id then updatedEvent else event }

/-- The payload field of the trailing route params, as the untyped value the
App.tsx observer reads: absent (undefined), an object that lacks the id
field, or a well-formed Event object. -/
inductive PayloadVal where
  | undef : PayloadVal
  | objWithoutId : PayloadVal
  | objEvent : Event → PayloadVal
deriving DecidableEq, Repr

/-- The trailing route params of the outgoing screen, as the untyped value
the App.tsx observer extracts with optional chaining: either no params at
all (every optional-chaining step or the params themselves read as
undefined) or an object with an optional type tag and a payload field. -/
inductive ParamsVal where
  | noParams : ParamsVal
  | action : Option String → PayloadVal → ParamsVal
deriving DecidableEq, Repr

/-- A thrown JavaScript error. The only one the observer can raise is the
TypeError from reading the id property of undefined. -/
inductive JSError where
  | typeError : JSError
deriving DecidableEq, Repr

/-- The screenListeners.state observer of App.tsx (lines 26 to 39), applied
to the trailing params it extracts and to the profile state it holds. When
the params carry no UPDATE_EVENT tag nothing happens. When they do, the
updater maps over attendedEvents comparing each id with payload.id: with the
payload absent, reading payload.id throws a TypeError; with a payload object
that lacks the id field, payload.id reads as undefined, the strict equality
with every integer id is false, and the map keeps every entry; with an Event
payload the map is the replacement of handleUpdateEvent. -/
def screenListenersState (params : ParamsVal) (profile : UserProfile) :
    Except JSError UserProfile :=
  match params with
  | ParamsVal.noParams => Except.ok profile
  | ParamsVal.action type payload =>
    if type = some "UPDATE_EVENT" then
      match payload with
      | PayloadVal.undef => Except.error JSError.typeError
      | PayloadVal.objWithoutId =>
          Except.ok
            { profile with
              attendedEvents := profile.attendedEvents.map fun event => event }
      | PayloadVal.objEvent e => Except.ok (handleUpdateEvent e profile)
    else Except.ok profile

/-- State of one EventDetailScreen session: the local currentEvent and the
log of events passed to onUpdateEvent, in call order. -/
structure DetailState where
  currentEvent : Event
  emitted : List Event
deriving DecidableEq, Repr

/-- handleRating of EventDetailScreen (src/unnamed/part_005, lines 1269 to
1278 and the second variant at lines 1584 to 1593): build the updated event
from currentEvent with rated set and the tapped rating, store it as the new
currentEvent, and call onUpdateEvent with it, on every tap. -/
def handleRating (rating : Int) (s : DetailState) : DetailState :=
  let updatedEvent : Event :=
    { s.currentEvent with rated := true, rating := some rating }
  { currentEvent := updatedEvent, emitted := s.emitted ++ [updatedEvent] }

/-- The detail view opens with the event received by value and has called
onUpdateEvent zero times (src/unnamed/part_005, lines 1261 to 1262). -/
def initialDetailState (event : Event) : DetailState :=
  { currentEvent := event, emitted := [] }

/-- A whole detail-view session: the star taps applied in order, each
through handleRating, starting from the received event. Navigating back
runs no further code of the screen, so the final state is also the state at
exit. -/
def runTaps (taps : List Int) (event : Event) : DetailState :=
  taps.foldl (fun s k => handleRating k s) (initialDetailState event)

/-- Outcome of a save attempt in the edit view: a validation alert with its
message and no callback, or the invocation of onUpdateProfile with the
given profile. -/
inductive SaveResult where
  | invalid : String → SaveResult
  | saved : UserProfile → SaveResult
deriving DecidableEq, Repr

namespace EditProfileScreenV1

/-- handleSave of the first EditProfileScreen variant (src/unnamed/part_005,
lines 483 to 488): it invokes onUpdateProfile with editedProfile
unconditionally, with no validation of any field. -/
def handleSave (editedProfile : UserProfile) : SaveResult :=
  SaveResult.saved editedProfile

/-- addInterest of the first EditProfileScreen variant (src/unnamed/part_005,
lines 500 to 508): when the trimmed input is non-empty (truthy) and not
already an element of interests, append the trimmed input and clear the
input field; otherwise change nothing. Returns the edited profile and the
pending-input field after the call. -/
def addInterest (editedProfile : UserProfile) (newInterest : String) :
    UserProfile × String :=
  if jsTrim newInterest ≠ "" ∧ jsTrim newInterest ∉ editedProfile.interests then
    ({ editedProfile with
        interests := editedProfile.interests ++ [jsTrim newInterest] }, "")
  else
    (editedProfile, newInterest)

end EditProfileScreenV1

namespace EditProfileScreenV2

/-- handleSave of the second EditProfileScreen variant (src/unnamed/part_005,
lines 820 to 833): an empty trimmed name raises the alert Name is required
and returns; then an empty trimmed bio raises the alert Bio is required and
returns; otherwise onUpdateProfile is invoked with editedProfile. -/
def handleSave (editedProfile : UserProfile) : SaveResult :=
  if jsTrim editedProfile.name = "" then SaveResult.invalid "Name is required"
  else if jsTrim editedProfile.bio = "" then SaveResult.invalid "Bio is required"
  else SaveResult.saved editedProfile

/-- handleAddInterest of the second EditProfileScreen variant
(src/unnamed/part_005, lines 835 to 849): an empty trimmed input returns at
once; a trimmed input already among the interests raises the duplicate
alert and returns; otherwise the trimmed input is appended and the input
field cleared. Returns the edited profile and the pending-input field. -/
def handleAddInterest (editedProfile : UserProfile) (newInterest : String) :
    UserProfile × String :=
  if jsTrim newInterest = "" then (editedProfile, newInterest)
  else if jsTrim newInterest ∈ editedProfile.interests then
    (editedProfile, newInterest)
  else
    ({ editedProfile with
        interests := editedProfile.interests ++ [jsTrim newInterest] }, "")

end EditProfileScreenV2

/-- Concrete event shaped like the first seed event, unrated. -/
def sampleEvent1 : Event :=
  { id := 1, title := "Sunset Rooftop Social", description := "Rooftop mixer",
    location := "The Crown, Central", date := "2024-06-01T18:00:00Z",
    rated := false, rating := none, coordinates := some ⟨2283, 11416⟩ }

/-- Concrete event shaped like the second seed event, already rated 4. -/
def sampleEvent2 : Event :=
  { id := 2, title := "Morning Matcha Meet", description := "Tea tasting",
    location := "Matchali, K11 Musea", date := "2024-07-12T09:30:00Z",
    rated := true, rating := some 4, coordinates := none }

/-- Concrete profile with two attended events and one interest. -/
def sampleProfile : UserProfile :=
  { name := "Athena Au", bio := "Event lover", profileImageUrl := "profilepic.png",
    birthdate := none, email := none, phone := none, interests := ["Art"],
    location := some "Hong Kong", occupation := none,
    attendedEvents := [sampleEvent1, sampleEvent2] }

/-- The first sample event after a 5-star rating: matches the id of an
entry of sampleProfile.attendedEvents. -/
def ratedEvent1 : Event :=
  { sampleEvent1 with rated := true, rating := some 5 }

/-- An updated event whose id 99 matches no entry of
sampleProfile.attendedEvents. -/
def unmatchedEvent : Event :=
  { sampleEvent1 with id := 99, rated := true, rating := some 3 }

/-- The first sample event as the detail view would receive it after an
earlier 3-star rating was saved. -/
def alreadyRatedEvent : Event :=
  { sampleEvent1 with rated := true, rating := some 3 }

/-- The sample profile with the name cleared to the empty string. -/
def emptyNameProfile : UserProfile :=
  { sampleProfile with name := "" }

/-- The sample profile whose one interest carries a leading space. -/
def paddedInterestProfile : UserProfile :=
  { sampleProfile with interests := [" Art"] }

/-- Shared helper: the replacement map leaves a list with no matching id
unchanged. -/
theorem map_replace_of_no_match (e : Event) (l : List Event)
    (h : ∀ ev ∈ l, ev.id ≠ e.id) :
    (l.map fun ev => if ev.id = e.id then e else ev) = l := by
  induction l with
  | nil => rfl
  | cons a t ih =>
      simp only [List.map_cons, List.cons.injEq]
      refine ⟨?_, ih fun ev hev => h ev (List.mem_cons_of_mem a hev)⟩
      have ha : a.id ≠ e.id := h a (List.mem_cons_self a t)
      simp [ha]

/-- Shared helper: the replacement map is idempotent on lists. -/
theorem map_replace_idem (e : Event) (l : List Event) :
    ((l.map fun ev => if ev.id = e.id then e else ev).map
        fun ev => if ev.id = e.id then e else ev) =
      l.map fun ev => if ev.id = e.id then e else ev := by
  induction l with
  | nil => rfl
  | cons a t ih =>
      simp only [List.map_cons, List.cons.injEq]
      refine ⟨?_, ih⟩
      by_cases ha : a.id = e.id
      · simp [ha]
      · simp [ha]

/-- Claim C1: for every profile and updated event whose id equals the id of
some entry of attendedEvents, handleUpdateEvent keeps the count of
attendedEvents and, position by position, replaces exactly the entries whose
id matches with the updated event and keeps every other entry unchanged, so
the relative order is preserved and no entry is duplicated. -/
theorem handleUpdateEvent_replaces_pointwise (p : UserProfile) (e : Event)
    (h : ∃ ev ∈ p.attendedEvents, ev.id = e.id) :
    (handleUpdateEvent e p).attendedEvents.length = p.attendedEvents.length ∧
    ∀ i : Nat,
      ((handleUpdateEvent e p).attendedEvents)[i]? =
        Option.map (fun ev => if ev.id = e.id then e else ev)
          p.attendedEvents[i]? := by
  unfold handleUpdateEvent
  refine ⟨by simp, fun i => ?_⟩
  simp [List.getElem?_map]

/-- Witness for Claim C1 at the sample profile and the rated first event. -/
theorem handleUpdateEvent_replaces_pointwise_witness :
    (∃ ev ∈ sampleProfile.attendedEvents, ev.id = ratedEvent1.id) ∧
    ((handleUpdateEvent ratedEvent1 sampleProfile).attendedEvents.length =
        sampleProfile.attendedEvents.length ∧
      ∀ i : Nat,
        ((handleUpdateEvent ratedEvent1 sampleProfile).attendedEvents)[i]? =
          Option.map (fun ev => if ev.id = ratedEvent1.id then ratedEvent1 else ev)
            sampleProfile.attendedEvents[i]?) :=
  ⟨by decide,
    handleUpdateEvent_replaces_pointwise sampleProfile ratedEvent1 (by decide)⟩

/-- Claim C3: for every profile and updated event whose id matches no entry
of attendedEvents, handleUpdateEvent returns the profile unchanged by value,
order and count included, and signals no error. -/
theorem handleUpdateEvent_unmatched_noop (p : UserProfile) (e : Event)
    (h : ∀ ev ∈ p.attendedEvents, ev.id ≠ e.id) :
    handleUpdateEvent e p = p := by
  unfold handleUpdateEvent
  rw [map_replace_of_no_match e p.attendedEvents h]

/-- Witness for Claim C3 at the sample profile and the event with id 99. -/
theorem handleUpdateEvent_unmatched_noop_witness :
    (∀ ev ∈ sampleProfile.attendedEvents, ev.id ≠ unmatchedEvent.id) ∧
    handleUpdateEvent unmatchedEvent sampleProfile = sampleProfile :=
  ⟨by decide,
    handleUpdateEvent_unmatched_noop sampleProfile unmatchedEvent (by decide)⟩

/-- Claim C4: for every profile and event whose id matches some entry of
attendedEvents, applying handleUpdateEvent twice yields the same profile
value as applying it once. -/
theorem handleUpdateEvent_idempotent (p : UserProfile) (e : Event)
    (h : ∃ ev ∈ p.attendedEvents, ev.id = e.id) :
    handleUpdateEvent e (handleUpdateEvent e p) = handleUpdateEvent e p := by
  simp only [handleUpdateEvent]
  rw [map_replace_idem]

/-- Witness for Claim C4 at the sample profile and the rated first event. -/
theorem handleUpdateEvent_idempotent_witness :
    (∃ ev ∈ sampleProfile.attendedEvents, ev.id = ratedEvent1.id) ∧
    handleUpdateEvent ratedEvent1 (handleUpdateEvent ratedEvent1 sampleProfile) =
      handleUpdateEvent ratedEvent1 sampleProfile :=
  ⟨by decide,
    handleUpdateEvent_idempotent sampleProfile ratedEvent1 (by decide)⟩

/-- Counterexample to Claim C2: a transition payload tagged UPDATE_EVENT
that carries no event payload at all makes the App.tsx observer read the id
property of undefined, which throws a TypeError instead of being dropped. -/
theorem screenListenersState_missing_payload_throws :
    screenListenersState
        (ParamsVal.action (some "UPDATE_EVENT") PayloadVal.undef)
        sampleProfile =
      Except.error JSError.typeError := by
  simp [screenListenersState]

/-- Claim C2 as amended: for a transition tagged UPDATE_EVENT whose payload
object is present but lacks the id field, the observer does not throw and
the profile it holds is unchanged by value; for a tagged transition with no
payload at all, the observer throws a TypeError. -/
theorem screenListenersState_malformed_cases (p : UserProfile) :
    screenListenersState
        (ParamsVal.action (some "UPDATE_EVENT") PayloadVal.objWithoutId) p =
      Except.ok p ∧
    screenListenersState
        (ParamsVal.action (some "UPDATE_EVENT") PayloadVal.undef) p =
      Except.error JSError.typeError := by
  cases p
  exact ⟨by simp [screenListenersState], rfl⟩

/-- Counterexample to Claim C5: opening the detail view with an event
already rated 3 stars and tapping star 3 leaves currentEvent equal to the
originally received value, yet onUpdateEvent is called, once per tap and at
the moment of the tap, not on navigating back. -/
theorem handleRating_emits_without_change :
    (runTaps [3] alreadyRatedEvent).currentEvent = alreadyRatedEvent ∧
    (runTaps [3] alreadyRatedEvent).emitted = [alreadyRatedEvent] := by
  decide

/-- Shared helper for the tap fold: each handleRating call appends exactly
one event to the emission log. -/
theorem foldl_handleRating_emitted_length (taps : List Int) (s : DetailState) :
    (taps.foldl (fun s k => handleRating k s) s).emitted.length =
      s.emitted.length + taps.length := by
  induction taps generalizing s with
  | nil => simp
  | cons k t ih =>
      rw [List.foldl_cons, ih]
      simp only [handleRating, List.length_append, List.length_cons,
        List.length_nil]
      omega

/-- Claim C5 as amended: the detail view calls onUpdateEvent exactly once
per star tap, at the moment of the tap and with the freshly updated event,
whether or not currentEvent differs from the originally received value;
navigating back runs no emission code, so a session with the given taps
emits exactly one update per tap. -/
theorem runTaps_emits_once_per_tap (event : Event) (taps : List Int) :
    (runTaps taps event).emitted.length = taps.length := by
  simp [runTaps, foldl_handleRating_emitted_length, initialDetailState]

/-- Counterexample to Claim C6: the EditProfileScreen variant at
src/unnamed/part_005 lines 483 to 488 runs no validation at all, so saving
a profile whose name was cleared to the empty string still invokes
onUpdateProfile with that profile. -/
theorem handleSave_unvalidated_saves_empty_name :
    jsTrim emptyNameProfile.name = "" ∧
    EditProfileScreenV1.handleSave emptyNameProfile =
      SaveResult.saved emptyNameProfile := by
  decide

/-- Claim C6 as amended: the EditProfileScreen variant at lines 820 to 833
validates that name and bio are non-empty after trimming, reports a
validation alert and never invokes onUpdateProfile when either is empty,
and invokes onUpdateProfile with the edited profile when both are
non-empty; the variant at lines 483 to 488 invokes onUpdateProfile
unconditionally, with no validation. -/
theorem handleSave_validates (p : UserProfile) :
    ((jsTrim p.name = "" ∨ jsTrim p.bio = "") →
        (∃ m, EditProfileScreenV2.handleSave p = SaveResult.invalid m) ∧
        ∀ q, EditProfileScreenV2.handleSave p ≠ SaveResult.saved q) ∧
    (jsTrim p.name ≠ "" → jsTrim p.bio ≠ "" →
        EditProfileScreenV2.handleSave p = SaveResult.saved p) ∧
    EditProfileScreenV1.handleSave p = SaveResult.saved p := by
  refine ⟨?_, ?_, rfl⟩
  · intro h
    unfold EditProfileScreenV2.handleSave
    by_cases hn : jsTrim p.name = ""
    · simp [hn]
    · have hb : jsTrim p.bio = "" := by tauto
      simp [hn, hb]
  · intro hn hb
    unfold EditProfileScreenV2.handleSave
    simp [hn, hb]

/-- Counterexample to Claim C7: with interests containing the single entry
consisting of Art with a leading space, adding the input equal
(case-sensitive) to that existing entry does not leave interests unchanged:
the input is trimmed first, the trimmed form is not yet present, and it is
appended, growing the list to length two. -/
theorem addInterest_exact_duplicate_appends :
    " Art" ∈ paddedInterestProfile.interests ∧
    (EditProfileScreenV1.addInterest paddedInterestProfile " Art").1.interests =
      [" Art", "Art"] := by
  decide

/-- Claim C7 as amended: the add-interest operation first trims the
candidate; when the trimmed form is empty or equal (case-sensitive) to an
existing element of interests, both edit-view variants leave the edited
profile and the pending input unchanged; otherwise both append the trimmed
form at the end, preserving the insertion order of the existing
interests. -/
theorem addInterest_trims_then_rejects_duplicates (p : UserProfile)
    (s : String) :
    ((jsTrim s = "" ∨ jsTrim s ∈ p.interests) →
        EditProfileScreenV1.addInterest p s = (p, s) ∧
        EditProfileScreenV2.handleAddInterest p s = (p, s)) ∧
    (jsTrim s ≠ "" → jsTrim s ∉ p.interests →
        (EditProfileScreenV1.addInterest p s).1.interests =
          p.interests ++ [jsTrim s] ∧
        (EditProfileScreenV2.handleAddInterest p s).1.interests =
          p.interests ++ [jsTrim s]) := by
  constructor
  · intro h
    constructor
    · unfold EditProfileScreenV1.addInterest
      rw [if_neg (by tauto : ¬(jsTrim s ≠ "" ∧ jsTrim s ∉ p.interests))]
    · unfold EditProfileScreenV2.handleAddInterest
      rcases h with h | h
      · rw [if_pos h]
      · by_cases he : jsTrim s = ""
        · rw [if_pos he]
        · rw [if_neg he, if_pos h]
  · intro h1 h2
    constructor
    · unfold EditProfileScreenV1.addInterest
      rw [if_pos ⟨h1, h2⟩]
    · unfold EditProfileScreenV2.handleAddInterest
      rw [if_neg h1, if_neg h2]

/-- Claim C8: from any event and after any prior taps, tapping star k with
k between 1 and 5 moves currentEvent to the rated state: rated is true and
rating is exactly the index of the last tapped star, an integer in the
range 1 to 5. Re-rating always succeeds because the tap is processed
unconditionally. -/
theorem rating_after_taps (e : Event) (ts : List Int) (k : Int)
    (hk : 1 ≤ k ∧ k ≤ 5) :
    (runTaps (ts ++ [k]) e).currentEvent.rated = true ∧
    (runTaps (ts ++ [k]) e).currentEvent.rating = some k ∧
    1 ≤ k ∧ k ≤ 5 := by
  refine ⟨?_, ?_, hk.1, hk.2⟩ <;>
    simp [runTaps, List.foldl_append, List.foldl_cons, List.foldl_nil,
      handleRating]

/-- Witness for Claim C8: two earlier taps, then star 3. -/
theorem rating_after_taps_witness :
    (1 ≤ (3 : Int) ∧ (3 : Int) ≤ 5) ∧
    ((runTaps ([1, 5] ++ [3]) sampleEvent1).currentEvent.rated = true ∧
      (runTaps ([1, 5] ++ [3]) sampleEvent1).currentEvent.rating = some 3 ∧
      1 ≤ (3 : Int) ∧ (3 : Int) ≤ 5) :=
  ⟨by decide, rating_after_taps sampleEvent1 [1, 5] 3 (by decide)⟩

/-- The fields of an Event that a rating action must not touch: everything
except rated and rating. -/
def frameEq (u e : Event) : Prop :=
  u.id = e.id ∧ u.title = e.title ∧ u.description = e.description ∧
    u.location = e.location ∧ u.date = e.date ∧
    u.coordinates = e.coordinates

instance (u e : Event) : Decidable (frameEq u e) := by
  unfold frameEq
  exact inferInstance

/-- Shared helper: frameEq is reflexive. -/
theorem frameEq_refl (e : Event) : frameEq e e := by
  unfold frameEq
  exact ⟨rfl, rfl, rfl, rfl, rfl, rfl⟩

/-- Shared helper: one handleRating call keeps every frame field of
currentEvent. -/
theorem handleRating_preserves_frame (k : Int) (s : DetailState) (e : Event)
    (hc : frameEq s.currentEvent e) :
    frameEq (handleRating k s).currentEvent e := hc

/-- Shared helper: the tap fold keeps every frame field of currentEvent and
of every emitted event. -/
theorem foldl_handleRating_frame (e : Event) (taps : List Int)
    (s : DetailState) (hc : frameEq s.currentEvent e)
    (he : ∀ u ∈ s.emitted, frameEq u e) :
    frameEq ((taps.foldl (fun s k => handleRating k s) s).currentEvent) e ∧
    ∀ u ∈ (taps.foldl (fun s k => handleRating k s) s).emitted,
      frameEq u e := by
  induction taps generalizing s with
  | nil => exact ⟨hc, he⟩
  | cons k t ih =>
      rw [List.foldl_cons]
      refine ih (handleRating k s) (handleRating_preserves_frame k s e hc) ?_
      intro u hu
      simp only [handleRating, List.mem_append, List.mem_singleton] at hu
      rcases hu with hu | hu
      · exact he u hu
      · subst hu
        exact hc

/-- Claim C9: a detail-view session of any length mutates only the rated
and rating fields: id, title, description, location, date and coordinates
of currentEvent, and of every event passed to onUpdateEvent, are unchanged
from the originally received event. -/
theorem rating_touches_only_rating_fields (e : Event) (taps : List Int) :
    frameEq (runTaps taps e).currentEvent e ∧
    ∀ u ∈ (runTaps taps e).emitted, frameEq u e := by
  simp only [runTaps]
  refine foldl_handleRating_frame e taps (initialDetailState e)
    (frameEq_refl e) ?_
  intro u hu
  simp [initialDetailState] at hu

/-- Witness for Claim C9 at a concrete session: three taps on the first
sample event. -/
theorem rating_touches_only_rating_fields_witness :
    frameEq (runTaps [2, 4, 5] sampleEvent1).currentEvent sampleEvent1 ∧
    ∀ u ∈ (runTaps [2, 4, 5] sampleEvent1).emitted, frameEq u sampleEvent1 :=
  rating_touches_only_rating_fields sampleEvent1 [2, 4, 5]

/-- Claim C10: for every input to the add-interest operation of either
edit-view variant, the interests list either stays as it was or gains
exactly the whitespace-trimmed form of the input at the end, and an input
that trims to the empty string leaves the edited profile and the pending
input completely unchanged. -/
theorem addInterest_stores_trimmed (p : UserProfile) (s : String) :
    ((EditProfileScreenV1.addInterest p s).1.interests = p.interests ∨
      (EditProfileScreenV1.addInterest p s).1.interests =
        p.interests ++ [jsTrim s]) ∧
    ((EditProfileScreenV2.handleAddInterest p s).1.interests = p.interests ∨
      (EditProfileScreenV2.handleAddInterest p s).1.interests =
        p.interests ++ [jsTrim s]) ∧
    (jsTrim s = "" →
        EditProfileScreenV1.addInterest p s = (p, s) ∧
        EditProfileScreenV2.handleAddInterest p s = (p, s)) := by
  refine ⟨?_, ?_, fun he => ?_⟩
  · unfold EditProfileScreenV1.addInterest
    by_cases hc : jsTrim s ≠ "" ∧ jsTrim s ∉ p.interests
    · exact Or.inr (by rw [if_pos hc])
    · exact Or.inl (by rw [if_neg hc])
  · unfold EditProfileScreenV2.handleAddInterest
    by_cases h1 : jsTrim s = ""
    · exact Or.inl (by rw [if_pos h1])
    · by_cases h2 : jsTrim s ∈ p.interests
      · exact Or.inl (by rw [if_neg h1, if_pos h2])
      · exact Or.inr (by rw [if_neg h1, if_neg h2])
  · constructor
    · unfold EditProfileScreenV1.addInterest
      rw [if_neg (by simp [he])]
    · unfold EditProfileScreenV2.handleAddInterest
      rw [if_pos he]
